import Mathlib

/-!
Shallow embedding of the AnythingLLM MCP server's request-dispatch and
error-normalization core (`src/anythingllm_mcp.py`), together with theorems
checking the natural-language specification against it.

Modelling conventions:
* Python exceptions become the inductive `Exc`.  The httpx class hierarchy is
  load-bearing: `TimeoutException` and `ConnectError` are both subclasses of
  `TransportError`, itself a subclass of `RequestError`, so the `isinstance`
  tests of `_handle_error` are modelled by the predicates `isRequestError`
  (true of timeouts, connection errors and other transport errors) and
  `isConnectError` (true of connection errors only).
* Parsed JSON values become the inductive `Json`; machine floats that occur in
  the code (validation bounds 0.0 and 1.0, user-supplied thresholds) are exact
  rationals, which is faithful because every IEEE float is a rational and the
  source never does float arithmetic, only comparisons and formatting of the
  integral bounds 0.0 and 1.0.
* The network becomes an explicit function `Backend` from request descriptors
  to outcomes; each tool returns its output string together with the list of
  requests actually issued, so "no network request is issued" is `log = []`.
-/

namespace AnythingLLM

/-- Parsed JSON values (the result of Python `json.loads` / `response.json()`).
Numbers are modelled as integers: the only numbers the verified code paths
construct or inspect are integral. -/
inductive Json where
  | null
  | bool (b : Bool)
  | num (n : Int)
  | str (s : String)
  | arr (elems : List Json)
  | obj (fields : List (String × Json))

/-- Keys of a JSON object (empty for non-objects). -/
def jsonKeys : Json → List String
  | .obj fs => fs.map Prod.fst
  | _ => []

/-- Python exceptions that can reach `_handle_error`.  `httpStatusError`
carries the response's status code, the result of trying `response.json()`
(`none` when the body is not valid JSON) and the raw response text, mirroring
the data `_handle_error` extracts from `httpx.HTTPStatusError`. -/
inductive Exc where
  | httpStatusError (status : Nat) (jsonBody : Option Json) (text : String)
  | runtimeError (msg : String)
  | timeoutException (msg : String)
  | connectError (msg : String)
  | otherRequestError (msg : String)
  | valueError (msg : String)
  | typeError (msg : String)
  | attributeError (msg : String)
  | jsonDecodeError (msg : String)

/-- `isinstance(e, httpx.HTTPStatusError)`. -/
def isHTTPStatusError : Exc → Bool
  | .httpStatusError _ _ _ => true
  | _ => false

/-- `isinstance(e, RuntimeError)`. -/
def isRuntimeError : Exc → Bool
  | .runtimeError _ => true
  | _ => false

/-- `isinstance(e, httpx.TimeoutException)`. -/
def isTimeoutException : Exc → Bool
  | .timeoutException _ => true
  | _ => false

/-- `isinstance(e, httpx.RequestError)`.  In httpx, `TimeoutException` and
`ConnectError` are subclasses of `TransportError <: RequestError`, so this is
true of all three transport-level constructors. -/
def isRequestError : Exc → Bool
  | .timeoutException _ => true
  | .connectError _ => true
  | .otherRequestError _ => true
  | _ => false

/-- `isinstance(e, httpx.ConnectError)`. -/
def isConnectError : Exc → Bool
  | .connectError _ => true
  | _ => false

/-- Python `str(e)`: the exception's message.  For `httpStatusError` the value
is never consulted because the status branch of `_handle_error` precedes every
use of `str(e)`; we return the carried response text for totality. -/
def excMsg : Exc → String
  | .httpStatusError _ _ text => text
  | .runtimeError m => m
  | .timeoutException m => m
  | .connectError m => m
  | .otherRequestError m => m
  | .valueError m => m
  | .typeError m => m
  | .attributeError m => m
  | .jsonDecodeError m => m

/-- Python `type(e).__name__`. -/
def excTypeName : Exc → String
  | .httpStatusError _ _ _ => "HTTPStatusError"
  | .runtimeError _ => "RuntimeError"
  | .timeoutException _ => "TimeoutException"
  | .connectError _ => "ConnectError"
  | .otherRequestError _ => "RequestError"
  | .valueError _ => "ValueError"
  | .typeError _ => "TypeError"
  | .attributeError _ => "AttributeError"
  | .jsonDecodeError _ => "JSONDecodeError"

/-! ### String helpers: Python `str.strip`, substring containment, lowering -/

/-- The characters Python `str.strip()` removes. -/
def isPySpace (c : Char) : Bool :=
  c = ' ' || c = '\t' || c = '\n' || c = '\r' || c = '\x0b' || c = '\x0c'

/-- Python `str.strip()`. -/
def pyStrip (s : String) : String :=
  String.mk (((s.data.dropWhile isPySpace).reverse.dropWhile isPySpace).reverse)

/-- Boolean test that `n` starts the list `h`. -/
def charsPre : List Char → List Char → Bool
  | [], _ => true
  | _ :: _, [] => false
  | a :: as, b :: bs => a = b && charsPre as bs

/-- Python's substring test `needle in haystack`. -/
def strContains (haystack needle : String) : Bool :=
  (List.range (haystack.data.length + 1)).any fun i =>
    charsPre needle.data (haystack.data.drop i)

/-- Boolean test that the string `p` starts the string `s`. -/
def strStarts (s p : String) : Bool :=
  charsPre p.data s.data

/-- ASCII lowering, used to compare code messages with the spec's phrases
case-insensitively. -/
def lowerAscii (s : String) : String :=
  String.mk (s.data.map Char.toLower)

/-! ### JSON serialization: `json.dumps` with and without `indent=2` -/

/-- Hex digit for `\u00XX` escapes. -/
def hexDigit (n : Nat) : Char :=
  if n < 10 then Char.ofNat (48 + n) else Char.ofNat (87 + n)

/-- JSON string-character escaping as performed by `json.dumps`.  (Non-ASCII
characters pass through unchanged as with `ensure_ascii=False`; the dispatcher
output path uses that flag, and no verified statement serializes non-ASCII
through the other path.) -/
def jsonEscapeChar (c : Char) : String :=
  if c = '"' then "\\\""
  else if c = '\\' then "\\\\"
  else if c = '\n' then "\\n"
  else if c = '\t' then "\\t"
  else if c = '\r' then "\\r"
  else if c.toNat < 32 then
    "\\u00" ++ String.mk [hexDigit (c.toNat / 16), hexDigit (c.toNat % 16)]
  else String.mk [c]

/-- A JSON string literal: `json.dumps` applied to a Python `str`. -/
def jsonQuote (s : String) : String :=
  "\"" ++ String.join (s.data.map jsonEscapeChar) ++ "\""

mutual

/-- Compact `json.dumps(value)` with the default separators `", "`/`": "`,
as used by `_handle_error` on a dict detail. -/
def jsonDumps : Json → String
  | .null => "null"
  | .bool b => if b then "true" else "false"
  | .num n => toString n
  | .str s => jsonQuote s
  | .arr xs => "[" ++ jsonDumpsList xs ++ "]"
  | .obj fs => "\x7b" ++ jsonDumpsFields fs ++ "\x7d"

/-- Comma-separated serialization of array elements. -/
def jsonDumpsList : List Json → String
  | [] => ""
  | [x] => jsonDumps x
  | x :: y :: xs => jsonDumps x ++ ", " ++ jsonDumpsList (y :: xs)

/-- Comma-separated serialization of object fields. -/
def jsonDumpsFields : List (String × Json) → String
  | [] => ""
  | [kv] => jsonQuote kv.1 ++ ": " ++ jsonDumps kv.2
  | kv :: kw :: fs => jsonQuote kv.1 ++ ": " ++ jsonDumps kv.2 ++ ", " ++ jsonDumpsFields (kw :: fs)

end

/-- Indentation produced by `json.dumps(..., indent=2)` at nesting `level`. -/
def pad (level : Nat) : String :=
  String.mk (List.replicate (2 * level) ' ')

mutual

/-- `json.dumps(value, indent=2)` at nesting `level`. -/
def jsonDumpsInd : Json → Nat → String
  | .null, _ => "null"
  | .bool b, _ => if b then "true" else "false"
  | .num n, _ => toString n
  | .str s, _ => jsonQuote s
  | .arr [], _ => "[]"
  | .arr (x :: xs), level =>
      "[\n" ++ pad (level + 1) ++ jsonDumpsIndList (x :: xs) (level + 1)
        ++ "\n" ++ pad level ++ "]"
  | .obj [], _ => "\x7b\x7d"
  | .obj (kv :: fs), level =>
      "\x7b\n" ++ pad (level + 1) ++ jsonDumpsIndFields (kv :: fs) (level + 1)
        ++ "\n" ++ pad level ++ "\x7d"

/-- Indented serialization of array elements, separated by `",\n" ++ pad`. -/
def jsonDumpsIndList : List Json → Nat → String
  | [], _ => ""
  | [x], level => jsonDumpsInd x level
  | x :: y :: xs, level =>
      jsonDumpsInd x level ++ ",\n" ++ pad level ++ jsonDumpsIndList (y :: xs) level

/-- Indented serialization of object fields. -/
def jsonDumpsIndFields : List (String × Json) → Nat → String
  | [], _ => ""
  | [kv], level => jsonQuote kv.1 ++ ": " ++ jsonDumpsInd kv.2 level
  | kv :: kw :: fs, level =>
      jsonQuote kv.1 ++ ": " ++ jsonDumpsInd kv.2 level ++ ",\n" ++ pad level
        ++ jsonDumpsIndFields (kw :: fs) level

end

/-! ### Python `repr`/`str` of parsed JSON values, for f-string interpolation -/

/-- Python `repr` escaping inside a single-quoted string literal. -/
def pyReprEscapeChar (c : Char) : String :=
  if c = '\\' then "\\\\"
  else if c = '\x27' then "\\\x27"
  else if c = '\n' then "\\n"
  else if c = '\t' then "\\t"
  else if c = '\r' then "\\r"
  else String.mk [c]

/-- Python `repr` of a `str`: a single-quoted literal.  (Python switches to
double quotes when the string contains a single quote and no double quote; no
verified statement exercises that corner.) -/
def pyQuote (s : String) : String :=
  "\x27" ++ String.join (s.data.map pyReprEscapeChar) ++ "\x27"

mutual

/-- Python `repr` of a value produced by `json.loads`. -/
def pyRepr : Json → String
  | .null => "None"
  | .bool b => if b then "True" else "False"
  | .num n => toString n
  | .str s => pyQuote s
  | .arr xs => "[" ++ pyReprList xs ++ "]"
  | .obj fs => "\x7b" ++ pyReprFields fs ++ "\x7d"

/-- Comma-separated `repr` of list elements. -/
def pyReprList : List Json → String
  | [] => ""
  | [x] => pyRepr x
  | x :: y :: xs => pyRepr x ++ ", " ++ pyReprList (y :: xs)

/-- Comma-separated `repr` of dict items. -/
def pyReprFields : List (String × Json) → String
  | [] => ""
  | [kv] => pyQuote kv.1 ++ ": " ++ pyRepr kv.2
  | kv :: kw :: fs => pyQuote kv.1 ++ ": " ++ pyRepr kv.2 ++ ", " ++ pyReprFields (kw :: fs)

end

/-- Python `str` of a value produced by `json.loads`, as an f-string
interpolates it: a `str` renders as itself, everything else as its `repr`. -/
def pyStr : Json → String
  | .str s => s
  | j => pyRepr j

/-! ### Configuration and the network model -/

/-- The module-level configuration read from the environment at import time:
`API_BASE_URL` (trailing slash already stripped) and `API_KEY`. -/
structure Config where
  apiBaseUrl : String
  apiKey : String

/-- A Python number as passed to `_validate_range`: the source's message
formatting distinguishes `int` bounds (printed `0`) from `float` bounds
(printed `0.0`). -/
inductive PyNum where
  | int (n : Int)
  | float (q : Rat)

/-- The numeric value, for comparisons. -/
def PyNum.toRat : PyNum → Rat
  | .int n => (n : Rat)
  | .float q => q

/-- Python `<` on numbers. -/
def pyNumLt (a b : PyNum) : Bool :=
  a.toRat < b.toRat

/-- Python f-string rendering of a `float` whose value is an integer, e.g.
`0.0` and `1.0` — the only float bounds the source ever formats.  Non-integral
rationals fall back to Lean's rational notation; no code path reaches it. -/
def pyFloatStr (q : Rat) : String :=
  if q.den = 1 then toString q.num ++ ".0" else toString q

/-- Python f-string rendering of a number. -/
def pyNumStr : PyNum → String
  | .int n => toString n
  | .float q => pyFloatStr q

/-- JSON-serializable Python values placed in request bodies. -/
inductive PyVal where
  | str (s : String)
  | int (n : Int)
  | float (q : Rat)
  | list (xs : List PyVal)

/-- One outbound HTTP request as handed to `httpx.AsyncClient.request`
(headers, which are the same on every request, are not modelled). -/
structure RequestDesc where
  method : String
  url : String
  body : Option (List (String × PyVal))
  params : Option (List (String × PyVal))

/-- An upstream HTTP response: status code, declared content type, raw text,
and the result of parsing the text as JSON (`none` when invalid). -/
structure HttpResponse where
  status : Nat
  contentType : String
  text : String
  jsonBody : Option Json

/-- What the network does with a request: respond, or raise one of the httpx
transport exceptions. -/
inductive ApiOutcome where
  | response (r : HttpResponse)
  | timeout (msg : String)
  | connectFailure (msg : String)
  | transportFailure (msg : String)

/-- The environment's network behaviour. -/
def Backend := RequestDesc → ApiOutcome

/-- A payload returned by the dispatcher: a parsed JSON value, or raw text
(`JsonPayload = dict | list | str` in the source, with all parsed shapes). -/
inductive JsonPayload where
  | json (j : Json)
  | text (s : String)

/-! ### The shared utilities of the source -/

/-- The message of the `RuntimeError` raised by `_require_api_key`. -/
def api_key_missing_msg : String :=
  "ANYTHINGLLM_API_KEY is not set. Configure it before using this MCP server."

/-- `_require_api_key`: fail unless the configured key is non-blank
(`if not API_KEY.strip()`). -/
def require_api_key (cfg : Config) : Except Exc Unit :=
  if pyStrip cfg.apiKey = "" then .error (.runtimeError api_key_missing_msg)
  else .ok ()

/-- Python `type(payload).__name__` for a `JsonPayload`. -/
def payloadTypeName : JsonPayload → String
  | .json .null => "NoneType"
  | .json (.bool _) => "bool"
  | .json (.num _) => "int"
  | .json (.str _) => "str"
  | .json (.arr _) => "list"
  | .json (.obj _) => "dict"
  | .text _ => "str"

/-- `_as_dict`: return the payload's fields when it is an object, otherwise
raise `TypeError` with the source's message. -/
def as_dict (payload : JsonPayload) (endpoint : String) : Except Exc (List (String × Json)) :=
  match payload with
  | .json (.obj fs) => .ok fs
  | _ => .error (.typeError ("Unexpected response type from \x27" ++ endpoint
      ++ "\x27. Expected object, got " ++ payloadTypeName payload ++ "."))

/-- `_validate_range`: raise `ValueError` unless `minimum ≤ value ≤ maximum`
(`if value < minimum or value > maximum`). -/
def validate_range (name : String) (value minimum maximum : PyNum) : Except Exc Unit :=
  if pyNumLt value minimum || pyNumLt maximum value then
    .error (.valueError (name ++ " must be between " ++ pyNumStr minimum
      ++ " and " ++ pyNumStr maximum ++ "."))
  else .ok ()

/-- `_api`: check the key, issue exactly one request against
`{base_url}/api/v1{endpoint}`, raise `HTTPStatusError` on a non-2xx status
(`raise_for_status`), then return the parsed JSON body when the content type
contains `application/json` and the raw text otherwise.  The second component
records the requests actually handed to the HTTP client. -/
def api (cfg : Config) (net : Backend) (endpoint method : String)
    (body params : Option (List (String × PyVal))) :
    Except Exc JsonPayload × List RequestDesc :=
  match require_api_key cfg with
  | .error e => (.error e, [])
  | .ok _ =>
    let req : RequestDesc :=
      ⟨method, cfg.apiBaseUrl ++ "/api/v1" ++ endpoint, body, params⟩
    match net req with
    | .timeout m => (.error (.timeoutException m), [req])
    | .connectFailure m => (.error (.connectError m), [req])
    | .transportFailure m => (.error (.otherRequestError m), [req])
    | .response r =>
      if 200 ≤ r.status ∧ r.status < 300 then
        if strContains r.contentType "application/json" then
          match r.jsonBody with
          | some j => (.ok (.json j), [req])
          | none => (.error (.jsonDecodeError "Expecting value: line 1 column 1 (char 0)"), [req])
        else (.ok (.text r.text), [req])
      else (.error (.httpStatusError r.status r.jsonBody r.text), [req])

/-- The fixed status-code-to-message table of `_handle_error`. -/
def status_messages (status : Nat) : Option String :=
  if status = 401 then some "Authentication failed. Check your ANYTHINGLLM_API_KEY."
  else if status = 403 then some "Permission denied. Your API key may lack required permissions."
  else if status = 404 then some "Resource not found. Check the slug or ID."
  else if status = 429 then some "Rate limit exceeded. Wait before retrying."
  else if status = 500 then some "Internal server error in AnythingLLM. Check LLM provider connectivity."
  else none

/-- The detail rendering of `_handle_error`:
`json.dumps(detail) if isinstance(detail, dict) else detail` inside an
f-string, where `detail` is `response.json()` when the body parses and
`response.text` otherwise. -/
def detail_string (jsonBody : Option Json) (text : String) : String :=
  match jsonBody with
  | some (.obj fs) => jsonDumps (.obj fs)
  | some j => pyStr j
  | none => text

/-- `_handle_error`, with the source's branch order preserved exactly:
`HTTPStatusError`, then `RuntimeError`, then `TimeoutException`, then
`RequestError`, then `ConnectError`, then the generic fallback. -/
def handle_error (cfg : Config) (e : Exc) : String :=
  match e with
  | .httpStatusError status jsonBody text =>
    let msg := (status_messages status).getD
      ("API error (HTTP " ++ toString status ++ ").")
    "Error: " ++ msg ++ "\nDetails: " ++ detail_string jsonBody text
  | _ =>
    if isRuntimeError e then "Error: " ++ excMsg e
    else if isTimeoutException e then
      "Error: Request timed out. AnythingLLM may be busy or unreachable."
    else if isRequestError e then "Error: Request failed: " ++ excMsg e
    else if isConnectError e then
      "Error: Cannot connect to AnythingLLM at " ++ cfg.apiBaseUrl ++ ". Is it running?"
    else "Error: " ++ excTypeName e ++ ": " ++ excMsg e

/-- `_json_response`: `json.dumps(data, indent=2, ensure_ascii=False,
default=str)`. -/
def json_response : JsonPayload → String
  | .json j => jsonDumpsInd j 0
  | .text s => jsonQuote s

/-- The uniform `try: return _json_response(await _api(...))
except Exception as e: return _handle_error(e)` pattern shared by the
pass-through tools. -/
def run_api (cfg : Config) (net : Backend) (endpoint method : String)
    (body params : Option (List (String × PyVal))) : String × List RequestDesc :=
  match api cfg net endpoint method body params with
  | (.ok result, log) => (json_response result, log)
  | (.error e, log) => (handle_error cfg e, log)

/-! ### Tool functions

Each tool returns the string handed back to the protocol runtime together
with the list of HTTP requests actually issued during the call. -/

/-- The `ChatMode` string enum. -/
inductive ChatMode where
  | chat
  | query

/-- `ChatMode.value`. -/
def ChatMode.value : ChatMode → String
  | .chat => "chat"
  | .query => "query"

/-- `check_auth`: `GET /auth`, pretty-print the result. -/
def check_auth (cfg : Config) (net : Backend) : String × List RequestDesc :=
  run_api cfg net "/auth" "GET" none none

/-- Python `len` of a parsed JSON value (`none` models `TypeError`: ints,
bools and `None` have no length; strings, lists and dicts do). -/
def pyLen : Json → Option Nat
  | .arr l => some l.length
  | .str s => some s.length
  | .obj fs => some fs.length
  | _ => none

/-- Python `for ws in workspaces`: lists iterate their elements, strings their
one-character substrings, dicts their keys; other values raise `TypeError`. -/
def pyIter : Json → Except Exc (List Json)
  | .arr l => .ok l
  | .str s => .ok (s.data.map fun c => Json.str (String.mk [c]))
  | .obj fs => .ok (fs.map fun kv => Json.str kv.1)
  | _ => .error (.typeError "object is not iterable")

/-- The summary entry `list_workspaces` builds for one workspace:
`ws.get(...)` on the six published fields, with `"chat"` defaulted for a
missing `chatMode` key and the thread count via `len(ws.get("threads", []))`.
A non-dict element raises `AttributeError`; a non-sized `threads` value raises
`TypeError`. -/
def summarize_ws (ws : Json) : Except Exc Json :=
  match ws with
  | .obj fs =>
    match pyLen ((List.lookup "threads" fs).getD (Json.arr [])) with
    | some n => .ok (.obj [
        ("name", (List.lookup "name" fs).getD .null),
        ("slug", (List.lookup "slug" fs).getD .null),
        ("chatMode", (List.lookup "chatMode" fs).getD (.str "chat")),
        ("vectorSearchMode", (List.lookup "vectorSearchMode" fs).getD .null),
        ("threads", .num (Int.ofNat n)),
        ("createdAt", (List.lookup "createdAt" fs).getD .null)])
    | none => .error (.typeError "object has no len()")
  | _ => .error (.attributeError "object has no attribute get")

/-- The summarizing loop of `list_workspaces`, aborting at the first
exception as the Python loop does. -/
def summarize_all : List Json → Except Exc (List Json)
  | [] => .ok []
  | ws :: rest =>
    match summarize_ws ws with
    | .error e => .error e
    | .ok s =>
      match summarize_all rest with
      | .error e => .error e
      | .ok ss => .ok (s :: ss)

/-- `list_workspaces`: `GET /workspaces`, then reshape each entry to the six
published fields and report the total count. -/
def list_workspaces (cfg : Config) (net : Backend) : String × List RequestDesc :=
  match api cfg net "/workspaces" "GET" none none with
  | (.error e, log) => (handle_error cfg e, log)
  | (.ok payload, log) =>
    match as_dict payload "/workspaces" with
    | .error e => (handle_error cfg e, log)
    | .ok fs =>
      match pyIter ((List.lookup "workspaces" fs).getD (.arr [])) with
      | .error e => (handle_error cfg e, log)
      | .ok l =>
        match summarize_all l with
        | .error e => (handle_error cfg e, log)
        | .ok summary =>
          (json_response (.json (.obj [
            ("total", .num (Int.ofNat summary.length)),
            ("workspaces", .arr summary)])), log)

/-- Validation of one optional argument of `update_workspace`. -/
def opt_validate (name : String) (v : Option PyNum) (lo hi : PyNum) : Except Exc Unit :=
  match v with
  | some x => validate_range name x lo hi
  | none => .ok ()

/-- `update_workspace`: validate the four bounded arguments in source order,
drop the `None` arguments, refuse an empty update set, then
`POST /workspace/{slug}/update`. -/
def update_workspace (cfg : Config) (net : Backend) (slug : String)
    (name : Option String) (openAiTemp : Option Rat) (openAiHistory : Option Int)
    (openAiPrompt : Option String) (similarityThreshold : Option Rat)
    (topN : Option Int) (chatMode : Option ChatMode) : String × List RequestDesc :=
  let checks : Except Exc Unit :=
    (opt_validate "openAiTemp" (openAiTemp.map .float) (.float 0) (.float 1)).bind fun _ =>
    (opt_validate "openAiHistory" (openAiHistory.map .int) (.int 0) (.int 100)).bind fun _ =>
    (opt_validate "similarityThreshold" (similarityThreshold.map .float) (.float 0) (.float 1)).bind fun _ =>
    opt_validate "topN" (topN.map .int) (.int 1) (.int 20)
  match checks with
  | .error e => (handle_error cfg e, [])
  | .ok _ =>
    let all_params : List (String × Option PyVal) := [
      ("name", name.map .str),
      ("openAiTemp", openAiTemp.map .float),
      ("openAiHistory", openAiHistory.map .int),
      ("openAiPrompt", openAiPrompt.map .str),
      ("similarityThreshold", similarityThreshold.map .float),
      ("topN", topN.map .int),
      ("chatMode", chatMode.map fun m => .str m.value)]
    let updates := all_params.filterMap fun kv => kv.2.map fun v => (kv.1, v)
    if updates.isEmpty then ("Error: No updates provided.", [])
    else run_api cfg net ("/workspace/" ++ slug ++ "/update") "POST" (some updates) none

/-- `search_workspace`: validate `top_n` (and `score_threshold` when given),
then `POST /workspace/{slug}/vector-search`. -/
def search_workspace (cfg : Config) (net : Backend) (slug query : String)
    (top_n : Int) (score_threshold : Option Rat) : String × List RequestDesc :=
  match validate_range "top_n" (.int top_n) (.int 1) (.int 20) with
  | .error e => (handle_error cfg e, [])
  | .ok _ =>
    let body : List (String × PyVal) := [("query", .str query), ("topN", .int top_n)]
    match score_threshold with
    | some st =>
      match validate_range "score_threshold" (.float st) (.float 0) (.float 1) with
      | .error e => (handle_error cfg e, [])
      | .ok _ =>
        run_api cfg net ("/workspace/" ++ slug ++ "/vector-search") "POST"
          (some (body ++ [("scoreThreshold", .float st)])) none
    | none =>
      run_api cfg net ("/workspace/" ++ slug ++ "/vector-search") "POST" (some body) none

/-- The allow-list of settings keys published by `get_system_settings`. -/
def safe_keys : List String := [
  "LLMProvider", "LLMModel", "VectorDB", "EmbeddingEngine",
  "EmbeddingModelPref", "EmbeddingModelMaxChunkLength",
  "MultiUserMode", "DisableTelemetry", "WhisperProvider",
  "TextToSpeechProvider", "OllamaLLMBasePath", "OllamaLLMModelPref"]

/-- `get_system_settings`: `GET /system`, then keep only the allow-listed
keys whose value is present and non-null
(`{k: settings.get(k) for k in safe_keys if settings.get(k) is not None}`). -/
def get_system_settings (cfg : Config) (net : Backend) : String × List RequestDesc :=
  match api cfg net "/system" "GET" none none with
  | (.error e, log) => (handle_error cfg e, log)
  | (.ok payload, log) =>
    match as_dict payload "/system" with
    | .error e => (handle_error cfg e, log)
    | .ok fs =>
      match (List.lookup "settings" fs).getD (.obj []) with
      | .obj sf =>
        let filtered := safe_keys.filterMap fun k =>
          match List.lookup k sf with
          | some .null => none
          | some v => some (k, v)
          | none => none
        (json_response (.json (.obj [("settings", .obj filtered)])), log)
      | _ => (handle_error cfg (.attributeError "object has no attribute get"), log)

/-- `upload_link`: reject links without an `http(s)://` scheme locally, then
`POST /document/upload-link`. -/
def upload_link (cfg : Config) (net : Backend) (link : String) : String × List RequestDesc :=
  if !(strStarts link "http://" || strStarts link "https://") then
    ("Error: Link must start with http:// or https://", [])
  else run_api cfg net "/document/upload-link" "POST" (some [("link", .str link)]) none

/-- `update_embeddings`: build the body from the truthy arguments (`None` and
the empty list are both falsy), refuse an empty body locally, then
`POST /workspace/{slug}/update-embeddings`. -/
def update_embeddings (cfg : Config) (net : Backend) (slug : String)
    (adds deletes : Option (List String)) : String × List RequestDesc :=
  let body : List (String × PyVal) :=
    (match adds with
     | some l => if l.isEmpty then [] else [("adds", .list (l.map .str))]
     | none => []) ++
    (match deletes with
     | some l => if l.isEmpty then [] else [("deletes", .list (l.map .str))]
     | none => [])
  if body.isEmpty then ("Error: Provide at least \x27adds\x27 or \x27deletes\x27.", [])
  else run_api cfg net ("/workspace/" ++ slug ++ "/update-embeddings") "POST" (some body) none

/-! ### Concrete fixtures used by witnesses and counterexamples -/

/-- The default configuration of the source with a non-blank key. -/
def demoConfig : Config := ⟨"http://localhost:3001", "test-key"⟩

/-- A configuration whose credential is the empty string. -/
def blankKeyConfig : Config := ⟨"http://localhost:3001", ""⟩

/-- A backend answering every request with `200 {}`. -/
def okBackend : Backend :=
  fun _ => .response ⟨200, "application/json", "\x7b\x7d", some (.obj [])⟩

/-- A backend answering every request with a `200` plain-text body. -/
def plainTextBackend : Backend :=
  fun _ => .response ⟨200, "text/plain; charset=utf-8", "pong", none⟩

/-! ### Helper lemmas about the string utilities -/

theorem charsPre_self_append (a b : List Char) : charsPre a (a ++ b) = true := by
  induction a with
  | nil => rfl
  | cons x xs ih => simp [charsPre, ih]

theorem charsPre_refl (a : List Char) : charsPre a a = true := by
  have := charsPre_self_append a []
  rwa [List.append_nil] at this

theorem charsPre_extend (n s t : List Char) (h : charsPre n s = true) :
    charsPre n (s ++ t) = true := by
  induction n generalizing s with
  | nil => rfl
  | cons x xs ih =>
    cases s with
    | nil => simp [charsPre] at h
    | cons y ys =>
      simp only [charsPre, Bool.and_eq_true, decide_eq_true_eq] at h
      simp only [List.cons_append, charsPre, Bool.and_eq_true, decide_eq_true_eq]
      exact ⟨h.1, ih ys h.2⟩

theorem strContains_iff (h n : String) :
    strContains h n = true ↔
      ∃ i, i ≤ h.data.length ∧ charsPre n.data (h.data.drop i) = true := by
  simp [strContains, List.any_eq_true, List.mem_range, Nat.lt_succ_iff]

theorem strContains_append_right (a b p : String) (h : strContains a p = true) :
    strContains (a ++ b) p = true := by
  obtain ⟨i, hi, hpre⟩ := (strContains_iff a p).mp h
  refine (strContains_iff (a ++ b) p).mpr ⟨i, ?_, ?_⟩
  · rw [String.data_append, List.length_append]; omega
  · rw [String.data_append, List.drop_append_of_le_length hi]
    exact charsPre_extend _ _ _ hpre

theorem strContains_append_left (a b p : String) (h : strContains b p = true) :
    strContains (a ++ b) p = true := by
  obtain ⟨i, hi, hpre⟩ := (strContains_iff b p).mp h
  refine (strContains_iff (a ++ b) p).mpr ⟨a.data.length + i, ?_, ?_⟩
  · rw [String.data_append, List.length_append]; omega
  · rw [String.data_append, List.drop_append]
    exact hpre

theorem strContains_refl (s : String) : strContains s s = true :=
  (strContains_iff s s).mpr ⟨0, Nat.zero_le _, by simpa using charsPre_refl s.data⟩

theorem strStarts_append (p s : String) : strStarts (p ++ s) p = true := by
  unfold strStarts
  rw [String.data_append]
  exact charsPre_self_append _ _

theorem strStarts_append_right (a b p : String) (h : strStarts a p = true) :
    strStarts (a ++ b) p = true := by
  unfold strStarts at h ⊢
  rw [String.data_append]
  exact charsPre_extend _ _ _ h

theorem lowerAscii_append (a b : String) :
    lowerAscii (a ++ b) = lowerAscii a ++ lowerAscii b := by
  unfold lowerAscii
  rw [String.data_append, List.map_append]
  rfl

theorem pyStrip_of_all_space (s : String) (h : ∀ c ∈ s.data, isPySpace c = true) :
    pyStrip s = "" := by
  unfold pyStrip
  rw [List.dropWhile_eq_nil_iff.mpr h]
  rfl

/-! ### C1 -/

/-- **C1** (code_bug evidence): in `_handle_error` the `isinstance(e,
httpx.RequestError)` test precedes the `isinstance(e, httpx.ConnectError)`
test, and `ConnectError` is a subclass of `RequestError`, so every
`ConnectError` receives the generic "Request failed" message and the
connection-specific branch naming the base URL is unreachable — contradicting
the claim that the connection-refused classification is applied before the
generic transport-failure classification. -/
theorem C1_connect_error_gets_generic_message :
    handle_error demoConfig (.connectError "Connection refused")
        = "Error: Request failed: Connection refused"
    ∧ handle_error demoConfig (.connectError "Connection refused")
        ≠ "Error: Cannot connect to AnythingLLM at http://localhost:3001. Is it running?"
    ∧ ∀ (cfg : Config) (m : String),
        isConnectError (.connectError m) = true
        ∧ isRequestError (.connectError m) = true
        ∧ handle_error cfg (.connectError m) = "Error: Request failed: " ++ m := by
  refine ⟨rfl, by decide, fun cfg m => ⟨rfl, rfl, rfl⟩⟩

/-! ### C9 -/

/-- **C9**: a timeout raised by the dispatcher is normalized to the fixed
message "Error: Request timed out. AnythingLLM may be busy or unreachable.",
which contains "timed out" — even though a `TimeoutException` is also a
transport-level `RequestError` (the timeout branch precedes that test). -/
theorem C9_timeout_message :
    (∀ (cfg : Config) (m : String),
        handle_error cfg (.timeoutException m)
          = "Error: Request timed out. AnythingLLM may be busy or unreachable.")
    ∧ strContains "Error: Request timed out. AnythingLLM may be busy or unreachable."
        "timed out" = true
    ∧ ∀ m : String, isRequestError (.timeoutException m) = true := by
  exact ⟨fun cfg m => rfl, by decide, fun m => rfl⟩

/-! ### C10 -/

/-- **C10**: a credential consisting only of whitespace is treated as missing:
`_require_api_key` strips it before the emptiness test, so the dispatcher
fails with the configuration `RuntimeError` and issues no request, and the
normalized message contains "ANYTHINGLLM_API_KEY is not set". -/
theorem C10_whitespace_key_rejected (cfg : Config) (net : Backend)
    (endpoint method : String) (body params : Option (List (String × PyVal)))
    (h : ∀ c ∈ cfg.apiKey.data, isPySpace c = true) :
    api cfg net endpoint method body params
      = (.error (.runtimeError api_key_missing_msg), [])
    ∧ strContains (handle_error cfg (.runtimeError api_key_missing_msg))
        "ANYTHINGLLM_API_KEY is not set" = true := by
  constructor
  · unfold api require_api_key
    rw [pyStrip_of_all_space cfg.apiKey h]
    rfl
  · have hmsg : handle_error cfg (.runtimeError api_key_missing_msg)
        = "Error: " ++ api_key_missing_msg := rfl
    rw [hmsg]
    decide

/-- Witness for C10 at the concrete whitespace-only key `" \t "`. -/
theorem C10_witness :
    api ⟨"http://localhost:3001", " \t "⟩ okBackend "/auth" "GET" none none
      = (.error (.runtimeError api_key_missing_msg), [])
    ∧ strContains (handle_error ⟨"http://localhost:3001", " \t "⟩
        (.runtimeError api_key_missing_msg)) "ANYTHINGLLM_API_KEY is not set" = true :=
  C10_whitespace_key_rejected ⟨"http://localhost:3001", " \t "⟩ okBackend
    "/auth" "GET" none none (by decide)

/-! ### C2 -/

/-- **C2** (counterexample): calling the search tool with `top_n = 0` issues
no request, but the returned string is
`"Error: ValueError: top_n must be between 1 and 20."` — the `ValueError`
falls through to `_handle_error`'s generic fallback, which prepends the
exception's type name — and not the exact string
`"Error: top_n must be between 1 and 20."` the claim states. -/
theorem C2_counterexample :
    (search_workspace demoConfig okBackend "demo" "query" 0 none).1
        = "Error: ValueError: top_n must be between 1 and 20."
    ∧ (search_workspace demoConfig okBackend "demo" "query" 0 none).1
        ≠ "Error: top_n must be between 1 and 20."
    ∧ (search_workspace demoConfig okBackend "demo" "query" 0 none).2 = [] := by
  exact ⟨rfl, by decide, rfl⟩

/-- **C2** (amended): for every invocation of the search tool with `top_n`
strictly outside `[1, 20]`, the returned string is exactly
`"Error: ValueError: top_n must be between 1 and 20."` (which contains the
claimed bounds message) and no network request is issued. -/
theorem C2_out_of_range_top_n (cfg : Config) (net : Backend) (slug query : String)
    (top_n : Int) (st : Option Rat) (h : top_n < 1 ∨ 20 < top_n) :
    search_workspace cfg net slug query top_n st
      = ("Error: ValueError: top_n must be between 1 and 20.", [])
    ∧ strContains (search_workspace cfg net slug query top_n st).1
        "top_n must be between 1 and 20." = true := by
  have hb : (pyNumLt (.int top_n) (.int 1) || pyNumLt (.int 20) (.int top_n)) = true := by
    simp only [pyNumLt, PyNum.toRat, Bool.or_eq_true, decide_eq_true_eq]
    exact_mod_cast h
  have hv : validate_range "top_n" (.int top_n) (.int 1) (.int 20)
      = .error (.valueError "top_n must be between 1 and 20.") := by
    unfold validate_range
    rw [hb]
    rfl
  have hmain : search_workspace cfg net slug query top_n st
      = ("Error: ValueError: top_n must be between 1 and 20.", []) := by
    unfold search_workspace
    rw [hv]
    rfl
  refine ⟨hmain, ?_⟩
  rw [hmain]
  decide

/-- Witness for the amended C2 at the concrete out-of-range value
`top_n = 21`. -/
theorem C2_witness :
    search_workspace demoConfig okBackend "w" "q" 21 none
      = ("Error: ValueError: top_n must be between 1 and 20.", [])
    ∧ strContains (search_workspace demoConfig okBackend "w" "q" 21 none).1
        "top_n must be between 1 and 20." = true :=
  C2_out_of_range_top_n demoConfig okBackend "w" "q" 21 none (Or.inr (by decide))

/-! ### C3 -/

/-- **C3** (counterexample): for a `200` response with content type
`text/plain` and body `pong`, the dispatcher does return the raw text, but
the tool then serializes it with `json.dumps`, so the tool's success output
is the quoted JSON string literal `"pong"` — not the raw response text
verbatim as the claim states. -/
theorem C3_counterexample :
    (api demoConfig plainTextBackend "/auth" "GET" none none).1
        = .ok (.text "pong")
    ∧ (check_auth demoConfig plainTextBackend).1 = "\"pong\""
    ∧ (check_auth demoConfig plainTextBackend).1 ≠ "pong" := by
  exact ⟨rfl, rfl, by decide⟩

/-- **C3** (amended): for every 2xx upstream response, if the content-type
header contains `application/json` the dispatcher returns the parsed JSON
value and the tool's success output is its pretty-printed serialization
(valid JSON matching the response body); for any other content type the
dispatcher returns the raw response text unchanged, and the tool's success
output is the JSON string literal encoding that text (quoted and escaped),
not the verbatim text. -/
theorem C3_content_type_dispatch (cfg : Config) (r : HttpResponse)
    (hkey : pyStrip cfg.apiKey ≠ "") (h2 : 200 ≤ r.status) (h3 : r.status < 300) :
    (∀ j, r.jsonBody = some j → strContains r.contentType "application/json" = true →
      (api cfg (fun _ => .response r) "/auth" "GET" none none).1 = .ok (.json j)
      ∧ (check_auth cfg (fun _ => .response r)).1 = jsonDumpsInd j 0)
    ∧ (strContains r.contentType "application/json" = false →
      (api cfg (fun _ => .response r) "/auth" "GET" none none).1 = .ok (.text r.text)
      ∧ (check_auth cfg (fun _ => .response r)).1 = jsonQuote r.text) := by
  have hreq : require_api_key cfg = .ok () := by
    unfold require_api_key
    rw [if_neg hkey]
  constructor
  · intro j hj hct
    have hapi : api cfg (fun _ => .response r) "/auth" "GET" none none
        = (.ok (.json j), [⟨"GET", cfg.apiBaseUrl ++ "/api/v1" ++ "/auth", none, none⟩]) := by
      unfold api
      rw [hreq]
      simp only [if_pos (And.intro h2 h3), hct, if_true, hj]
    refine ⟨by rw [hapi], ?_⟩
    unfold check_auth run_api
    rw [hapi]
    rfl
  · intro hct
    have hapi : api cfg (fun _ => .response r) "/auth" "GET" none none
        = (.ok (.text r.text), [⟨"GET", cfg.apiBaseUrl ++ "/api/v1" ++ "/auth", none, none⟩]) := by
      unfold api
      rw [hreq]
      simp only [if_pos (And.intro h2 h3), hct, if_false]
      rfl
    refine ⟨by rw [hapi], ?_⟩
    unfold check_auth run_api
    rw [hapi]
    rfl

/-- Witness for the amended C3: a JSON `200` response comes back as its
pretty-printed parse, and a `text/html` `200` response comes back quoted. -/
theorem C3_witness :
    (check_auth demoConfig (fun _ => .response
        ⟨200, "application/json", "\x7b\"ok\": true\x7d", some (.obj [("ok", .bool true)])⟩)).1
      = jsonDumpsInd (.obj [("ok", .bool true)]) 0
    ∧ (check_auth demoConfig (fun _ => .response ⟨204, "text/html", "ok", none⟩)).1
      = jsonQuote "ok" := by
  constructor
  · exact ((C3_content_type_dispatch demoConfig
      ⟨200, "application/json", "\x7b\"ok\": true\x7d", some (.obj [("ok", .bool true)])⟩
      (by decide) (by decide) (by decide)).1
      (.obj [("ok", .bool true)]) rfl (by decide)).2
  · exact ((C3_content_type_dispatch demoConfig ⟨204, "text/html", "ok", none⟩
      (by decide) (by decide) (by decide)).2 (by decide)).2

/-! ### C4 -/

/-- **C4** (counterexample): with an empty credential, a search invocation
whose `top_n` is out of range returns the local validation message — which
does not contain "ANYTHINGLLM_API_KEY is not set" — because validation runs
before the dispatcher's credential check.  (No request is issued either way.)
The claim's "for every tool invocation ... the returned string contains the
configuration-error message" is therefore false as stated. -/
theorem C4_counterexample :
    strContains (search_workspace blankKeyConfig okBackend "demo" "query" 0 none).1
        "ANYTHINGLLM_API_KEY is not set" = false
    ∧ (search_workspace blankKeyConfig okBackend "demo" "query" 0 none).1
        = "Error: ValueError: top_n must be between 1 and 20."
    ∧ (search_workspace blankKeyConfig okBackend "demo" "query" 0 none).2 = [] := by
  refine ⟨?_, ?_, ?_⟩
  · decide
  · rfl
  · rfl

/-- **C4** (amended): with a blank credential the dispatcher always fails
with the configuration `RuntimeError` before issuing any network request,
and every tool invocation that reaches the dispatcher (i.e. passes its local
validation) returns exactly the normalized configuration-error string, which
contains "ANYTHINGLLM_API_KEY is not set"; an invocation failing local
validation first returns that validation error instead, still without any
network request. -/
theorem C4_blank_credential (cfg : Config) (hkey : pyStrip cfg.apiKey = "") :
    (∀ (net : Backend) (endpoint method : String)
        (body params : Option (List (String × PyVal))),
      api cfg net endpoint method body params
        = (.error (.runtimeError api_key_missing_msg), []))
    ∧ (∀ net : Backend, check_auth cfg net = ("Error: " ++ api_key_missing_msg, []))
    ∧ (∀ net : Backend, list_workspaces cfg net = ("Error: " ++ api_key_missing_msg, []))
    ∧ (∀ net : Backend, get_system_settings cfg net = ("Error: " ++ api_key_missing_msg, []))
    ∧ (∀ (net : Backend) (slug query : String) (top_n : Int),
        1 ≤ top_n → top_n ≤ 20 →
        search_workspace cfg net slug query top_n none
          = ("Error: " ++ api_key_missing_msg, []))
    ∧ (∀ (net : Backend) (link : String), strStarts link "http://" = true →
        upload_link cfg net link = ("Error: " ++ api_key_missing_msg, []))
    ∧ (∀ (net : Backend) (slug nm : String),
        update_workspace cfg net slug (some nm) none none none none none none
          = ("Error: " ++ api_key_missing_msg, []))
    ∧ (∀ (net : Backend) (slug a : String) (l : List String),
        update_embeddings cfg net slug (some (a :: l)) none
          = ("Error: " ++ api_key_missing_msg, []))
    ∧ strContains ("Error: " ++ api_key_missing_msg)
        "ANYTHINGLLM_API_KEY is not set" = true := by
  have hapi : ∀ (net : Backend) (endpoint method : String)
      (body params : Option (List (String × PyVal))),
      api cfg net endpoint method body params
        = (.error (.runtimeError api_key_missing_msg), []) := by
    intro net endpoint method body params
    unfold api require_api_key
    rw [if_pos hkey]
  have hok : ∀ (top_n : Int), 1 ≤ top_n → top_n ≤ 20 →
      validate_range "top_n" (.int top_n) (.int 1) (.int 20) = .ok () := by
    intro top_n h1 h2
    unfold validate_range
    rw [if_neg]
    simp only [pyNumLt, PyNum.toRat, Bool.or_eq_true, decide_eq_true_eq, not_or, not_lt]
    constructor
    · exact_mod_cast h1
    · exact_mod_cast h2
  refine ⟨hapi, ?_, ?_, ?_, ?_, ?_, ?_, ?_, by decide⟩
  · intro net
    unfold check_auth run_api
    rw [hapi]
    rfl
  · intro net
    unfold list_workspaces
    rw [hapi]
    rfl
  · intro net
    unfold get_system_settings
    rw [hapi]
    rfl
  · intro net slug query top_n h1 h2
    unfold search_workspace run_api
    rw [hok top_n h1 h2]
    simp only [hapi]
    rfl
  · intro net link hlink
    unfold upload_link run_api
    rw [hlink]
    simp only [Bool.true_or, Bool.not_true, Bool.false_eq_true, if_false]
    rw [hapi]
    rfl
  · intro net slug nm
    unfold update_workspace run_api opt_validate
    simp only [hapi]
    rfl
  · intro net slug a l
    unfold update_embeddings run_api
    simp only [hapi]
    rfl

/-- Witness for the amended C4 at the concrete empty-key configuration. -/
theorem C4_witness :
    check_auth blankKeyConfig okBackend = ("Error: " ++ api_key_missing_msg, [])
    ∧ search_workspace blankKeyConfig okBackend "w" "q" 4 none
        = ("Error: " ++ api_key_missing_msg, [])
    ∧ update_embeddings blankKeyConfig okBackend "w" (some ["a"]) none
        = ("Error: " ++ api_key_missing_msg, []) := by
  refine ⟨(C4_blank_credential blankKeyConfig rfl).2.1 okBackend,
    (C4_blank_credential blankKeyConfig rfl).2.2.2.2.1 okBackend "w" "q" 4
      (by decide) (by decide),
    (C4_blank_credential blankKeyConfig rfl).2.2.2.2.2.2.2.1 okBackend "w" "a" []⟩

/-! ### C5 -/

/-- Whether a parsed JSON value is a Python `dict`. -/
def Json.isObj : Json → Bool
  | .obj _ => true
  | _ => false

/-- The detail rendering described by the amended claim: JSON-stringified
when the parsed detail is a JSON object, the raw response text when the body
is not valid JSON, and Python's string rendering of the parsed value
otherwise. -/
def claimed_detail (jsonBody : Option Json) (text : String) : String :=
  match jsonBody with
  | none => text
  | some j => if j.isObj then jsonDumps j else pyStr j

theorem detail_string_eq_claimed (jsonBody : Option Json) (text : String) :
    detail_string jsonBody text = claimed_detail jsonBody text := by
  cases jsonBody with
  | none => rfl
  | some j => cases j <;> rfl

/-- **C5** (counterexample): for a status-`418` response whose JSON body is
the array `["x"]`, the appended detail is Python's repr `['x']` — only dicts
are JSON-stringified, and any other parsed value is interpolated with
Python's string rendering — so the detail is neither the JSON-stringified
form `["x"]` nor the raw response text `["x"]`, refuting the claim's
"JSON-stringified if structured, else raw text". -/
theorem C5_counterexample :
    handle_error demoConfig (.httpStatusError 418 (some (.arr [.str "x"])) "[\"x\"]")
        = "Error: API error (HTTP 418).\nDetails: [\x27x\x27]"
    ∧ handle_error demoConfig (.httpStatusError 418 (some (.arr [.str "x"])) "[\"x\"]")
        ≠ "Error: API error (HTTP 418).\nDetails: [\"x\"]" := by
  refine ⟨rfl, by decide⟩

/-- **C5** (amended): every upstream status 401/403/404/429/500 produces an
error string containing (case-insensitively) the corresponding fixed phrase;
every other status produces a message containing "API error (HTTP <code>).";
and in both cases the error string contains a final "
Details: " segment
holding the extracted detail — JSON-stringified when the parsed body is a
JSON object, the raw text when the body is not valid JSON, and Python's
string rendering of the parsed value otherwise. -/
theorem C5_status_error_messages (cfg : Config) (status : Nat)
    (jsonBody : Option Json) (text : String) :
    ((status = 401 → strContains
        (lowerAscii (handle_error cfg (.httpStatusError status jsonBody text)))
        "authentication failed" = true)
     ∧ (status = 403 → strContains
        (lowerAscii (handle_error cfg (.httpStatusError status jsonBody text)))
        "permission denied" = true)
     ∧ (status = 404 → strContains
        (lowerAscii (handle_error cfg (.httpStatusError status jsonBody text)))
        "resource not found" = true)
     ∧ (status = 429 → strContains
        (lowerAscii (handle_error cfg (.httpStatusError status jsonBody text)))
        "rate limit exceeded" = true)
     ∧ (status = 500 → strContains
        (lowerAscii (handle_error cfg (.httpStatusError status jsonBody text)))
        "internal server error" = true)
     ∧ (status ≠ 401 → status ≠ 403 → status ≠ 404 → status ≠ 429 → status ≠ 500 →
        strContains (handle_error cfg (.httpStatusError status jsonBody text))
          ("API error (HTTP " ++ toString status ++ ").") = true))
    ∧ strContains (handle_error cfg (.httpStatusError status jsonBody text))
        ("
Details: " ++ claimed_detail jsonBody text) = true := by
  have hout : handle_error cfg (.httpStatusError status jsonBody text)
      = ("Error: " ++ (status_messages status).getD
          ("API error (HTTP " ++ toString status ++ ").")
        ++ "
Details: ") ++ claimed_detail jsonBody text := by
    rw [← detail_string_eq_claimed]
    rfl
  have hknown : ∀ (m p : String), status_messages status = some m →
      strContains (lowerAscii m) p = true →
      strContains (lowerAscii (handle_error cfg (.httpStatusError status jsonBody text)))
        p = true := by
    intro m p hm hp
    rw [hout, hm]
    rw [lowerAscii_append, lowerAscii_append, lowerAscii_append]
    apply strContains_append_right
    apply strContains_append_right
    exact strContains_append_left _ _ _ hp
  constructor
  · refine ⟨?_, ?_, ?_, ?_, ?_, ?_⟩
    · intro h; subst h
      exact hknown _ _ rfl (by decide)
    · intro h; subst h
      exact hknown _ _ rfl (by decide)
    · intro h; subst h
      exact hknown _ _ rfl (by decide)
    · intro h; subst h
      exact hknown _ _ rfl (by decide)
    · intro h; subst h
      exact hknown _ _ rfl (by decide)
    · intro h1 h2 h3 h4 h5
      have hnone : status_messages status = none := by
        unfold status_messages
        rw [if_neg h1, if_neg h2, if_neg h3, if_neg h4, if_neg h5]
      rw [hout, hnone]
      apply strContains_append_right
      apply strContains_append_right
      apply strContains_append_left
      exact strContains_refl _
  · rw [hout, String.append_assoc]
    exact strContains_append_left _ _ _ (strContains_refl _)

/-- Witness for the amended C5: a `403` with plain-text body carries
"permission denied", and a `418` with a JSON-object body appends the
JSON-stringified detail on the second line. -/
theorem C5_witness :
    strContains (lowerAscii (handle_error demoConfig
        (.httpStatusError 403 none "forbidden"))) "permission denied" = true
    ∧ strContains (handle_error demoConfig
        (.httpStatusError 418 (some (.obj [("error", .str "boom")])) "x"))
        ("\nDetails: " ++ claimed_detail (some (.obj [("error", .str "boom")])) "x")
        = true := by
  refine ⟨(C5_status_error_messages demoConfig 403 none "forbidden").1.2.1 rfl,
    (C5_status_error_messages demoConfig 418
      (some (.obj [("error", .str "boom")])) "x").2⟩

/-! ### C6 -/

/-- The six fields the workspace-listing tool publishes per entry. -/
def ws_keys : List String :=
  ["name", "slug", "chatMode", "vectorSearchMode", "threads", "createdAt"]

/-- A backend workspace entry the summarizing loop accepts without raising:
an object whose `threads` field, when present, is an array. -/
def goodWs : Json → Bool
  | .obj fs =>
    match List.lookup "threads" fs with
    | some (.arr _) => true
    | some _ => false
    | none => true
  | _ => false

theorem summarize_ws_good (ws : Json) (h : goodWs ws = true) :
    ∃ entry, summarize_ws ws = .ok entry ∧ jsonKeys entry = ws_keys := by
  cases ws with
  | obj fs =>
    simp only [summarize_ws]
    cases hlk : List.lookup "threads" fs with
    | none =>
      exact ⟨_, rfl, rfl⟩
    | some t =>
      simp only [goodWs] at h
      rw [hlk] at h
      cases t with
      | arr xs =>
        exact ⟨_, rfl, rfl⟩
      | null => simp at h
      | bool b => simp at h
      | num n => simp at h
      | str s => simp at h
      | obj fs2 => simp at h
  | null => exact absurd h (by simp [goodWs])
  | bool b => exact absurd h (by simp [goodWs])
  | num n => exact absurd h (by simp [goodWs])
  | str s => exact absurd h (by simp [goodWs])
  | arr l => exact absurd h (by simp [goodWs])

theorem summarize_all_good (l : List Json) (h : ∀ ws ∈ l, goodWs ws = true) :
    ∃ entries, summarize_all l = .ok entries
      ∧ entries.length = l.length
      ∧ ∀ e ∈ entries, jsonKeys e = ws_keys := by
  induction l with
  | nil => exact ⟨[], rfl, rfl, by intro e he; cases he⟩
  | cons ws rest ih =>
    obtain ⟨entry, hentry, hkeys⟩ := summarize_ws_good ws (h ws (List.mem_cons_self ws rest))
    obtain ⟨entries, hall, hlen, hkeysall⟩ :=
      ih fun w hw => h w (List.mem_cons_of_mem ws hw)
    refine ⟨entry :: entries, ?_, by simp [hlen], ?_⟩
    · unfold summarize_all
      rw [hentry, hall]
    · intro e he
      rcases List.mem_cons.mp he with he | he
      · rw [he]; exact hkeys
      · exact hkeysall e he

/-- **C6**: for every backend workspace list (entries may carry extra
internal fields), the listing tool's output is the serialization of an
object holding exactly a `total` field equal to the number of entries and a
`workspaces` array whose entries each have exactly the six published keys
`name`, `slug`, `chatMode`, `vectorSearchMode`, `threads`, `createdAt`. -/
theorem C6_list_workspaces_reshaping (cfg : Config)
    (fs : List (String × Json)) (wss : List Json)
    (hkey : pyStrip cfg.apiKey ≠ "")
    (hws : List.lookup "workspaces" fs = some (.arr wss))
    (hgood : wss.all goodWs = true) :
    ∃ entries : List Json,
      (list_workspaces cfg (fun _ => .response
          ⟨200, "application/json", jsonDumps (.obj fs), some (.obj fs)⟩)).1
        = jsonDumpsInd (.obj [("total", .num (Int.ofNat wss.length)),
            ("workspaces", .arr entries)]) 0
      ∧ entries.length = wss.length
      ∧ ∀ e ∈ entries, jsonKeys e = ws_keys := by
  obtain ⟨entries, hall, hlen, hkeys⟩ :=
    summarize_all_good wss (List.all_eq_true.mp hgood)
  have hapi : api cfg (fun _ => .response
      ⟨200, "application/json", jsonDumps (.obj fs), some (.obj fs)⟩)
      "/workspaces" "GET" none none
      = (.ok (.json (.obj fs)),
         [⟨"GET", cfg.apiBaseUrl ++ "/api/v1" ++ "/workspaces", none, none⟩]) := by
    unfold api require_api_key
    rw [if_neg hkey]
    simp only [if_pos (by decide : (200 : Nat) ≤ 200 ∧ (200 : Nat) < 300),
      show strContains "application/json" "application/json" = true from by decide,
      if_true]
  refine ⟨entries, ?_, hlen, hkeys⟩
  unfold list_workspaces
  rw [hapi]
  simp only [as_dict, pyIter, hws, Option.getD_some, hall]
  rw [hlen]
  rfl

/-- A concrete `/workspaces` response body whose two entries carry extra
internal fields. -/
def demo_ws_body : List (String × Json) :=
  [("workspaces", .arr
    [.obj [("name", .str "Papers"), ("slug", .str "papers"),
           ("internalSecret", .str "s"), ("threads", .arr [.obj [], .obj []]),
           ("createdAt", .str "2024-01-01")],
     .obj [("name", .str "Lands"), ("slug", .str "lands"),
           ("chatMode", .str "query"), ("vectorSearchMode", .str "default"),
           ("openAiTemp", .num 1)]])]

/-- Witness for C6: two workspaces with extra internal fields are reshaped
to the six published keys, with `total = 2`. -/
theorem C6_witness :
    ∃ entries : List Json,
      (list_workspaces demoConfig (fun _ => .response
          ⟨200, "application/json", jsonDumps (.obj demo_ws_body), some (.obj demo_ws_body)⟩)).1
        = jsonDumpsInd (.obj [("total", .num (Int.ofNat 2)),
            ("workspaces", .arr entries)]) 0
      ∧ entries.length = 2
      ∧ ∀ e ∈ entries, jsonKeys e = ws_keys :=
  C6_list_workspaces_reshaping demoConfig demo_ws_body
    [.obj [("name", .str "Papers"), ("slug", .str "papers"),
           ("internalSecret", .str "s"), ("threads", .arr [.obj [], .obj []]),
           ("createdAt", .str "2024-01-01")],
     .obj [("name", .str "Lands"), ("slug", .str "lands"),
           ("chatMode", .str "query"), ("vectorSearchMode", .str "default"),
           ("openAiTemp", .num 1)]]
    (by decide) rfl (by decide)

/-! ### C7 -/

/-- **C7**: whatever settings object the backend returns, every key of the
settings object published by the system-settings tool belongs to the fixed
allow-list `safe_keys`; no other key ever appears. -/
theorem C7_settings_allow_list (cfg : Config) (fs sf : List (String × Json))
    (hkey : pyStrip cfg.apiKey ≠ "")
    (hset : (List.lookup "settings" fs).getD (.obj []) = .obj sf) :
    ∃ filtered : List (String × Json),
      (get_system_settings cfg (fun _ => .response
          ⟨200, "application/json", jsonDumps (.obj fs), some (.obj fs)⟩)).1
        = jsonDumpsInd (.obj [("settings", .obj filtered)]) 0
      ∧ ∀ k ∈ filtered.map Prod.fst, k ∈ safe_keys := by
  have hapi : api cfg (fun _ => .response
      ⟨200, "application/json", jsonDumps (.obj fs), some (.obj fs)⟩)
      "/system" "GET" none none
      = (.ok (.json (.obj fs)),
         [⟨"GET", cfg.apiBaseUrl ++ "/api/v1" ++ "/system", none, none⟩]) := by
    unfold api require_api_key
    rw [if_neg hkey]
    simp only [if_pos (by decide : (200 : Nat) ≤ 200 ∧ (200 : Nat) < 300),
      show strContains "application/json" "application/json" = true from by decide,
      if_true]
  refine ⟨safe_keys.filterMap fun k =>
      match List.lookup k sf with
      | some .null => none
      | some v => some (k, v)
      | none => none, ?_, ?_⟩
  · unfold get_system_settings
    rw [hapi]
    simp only [as_dict]
    rw [hset]
    rfl
  · intro k hk
    obtain ⟨p, hmem, hfst⟩ := List.mem_map.mp hk
    obtain ⟨a, ha, hfa⟩ := List.mem_filterMap.mp hmem
    cases hla : List.lookup a sf with
    | none =>
      rw [hla] at hfa
      cases hfa
    | some w =>
      rw [hla] at hfa
      cases w with
      | null => cases hfa
      | bool b => cases hfa; subst hfst; exact ha
      | num n => cases hfa; subst hfst; exact ha
      | str s2 => cases hfa; subst hfst; exact ha
      | arr l => cases hfa; subst hfst; exact ha
      | obj o => cases hfa; subst hfst; exact ha

/-- A concrete `/system` response body with allow-listed keys, an extra
secret key, and a null-valued allow-listed key. -/
def demo_sys_body : List (String × Json) :=
  [("settings", .obj
    [("LLMProvider", .str "ollama"), ("SecretKey", .str "sssh"),
     ("LLMModel", .null), ("VectorDB", .str "lancedb")])]

/-- Witness for C7 at a concrete settings object carrying an extra internal
key and a null-valued allow-listed key. -/
theorem C7_witness :
    ∃ filtered : List (String × Json),
      (get_system_settings demoConfig (fun _ => .response
          ⟨200, "application/json", jsonDumps (.obj demo_sys_body), some (.obj demo_sys_body)⟩)).1
        = jsonDumpsInd (.obj [("settings", .obj filtered)]) 0
      ∧ ∀ k ∈ filtered.map Prod.fst, k ∈ safe_keys :=
  C7_settings_allow_list demoConfig demo_sys_body
    [("LLMProvider", .str "ollama"), ("SecretKey", .str "sssh"),
     ("LLMModel", .null), ("VectorDB", .str "lancedb")]
    (by decide) rfl

/-! ### C8 -/

theorem handle_error_starts (cfg : Config) (e : Exc) :
    strStarts (handle_error cfg e) "Error: " = true := by
  cases e with
  | httpStatusError s b t =>
    apply strStarts_append_right
    apply strStarts_append_right
    exact strStarts_append _ _
  | runtimeError m => exact strStarts_append _ _
  | timeoutException m =>
    show strStarts
      "Error: Request timed out. AnythingLLM may be busy or unreachable."
      "Error: " = true
    decide
  | connectError m =>
    exact strStarts_append_right "Error: Request failed: " m "Error: " (by decide)
  | otherRequestError m =>
    exact strStarts_append_right "Error: Request failed: " m "Error: " (by decide)
  | valueError m =>
    apply strStarts_append_right
    apply strStarts_append_right
    exact strStarts_append _ _
  | typeError m =>
    apply strStarts_append_right
    apply strStarts_append_right
    exact strStarts_append _ _
  | attributeError m =>
    apply strStarts_append_right
    apply strStarts_append_right
    exact strStarts_append _ _
  | jsonDecodeError m =>
    apply strStarts_append_right
    apply strStarts_append_right
    exact strStarts_append _ _

theorem run_api_output_shape (cfg : Config) (net : Backend) (endpoint method : String)
    (body params : Option (List (String × PyVal))) :
    (∃ p, (run_api cfg net endpoint method body params).1 = json_response p)
    ∨ strStarts (run_api cfg net endpoint method body params).1 "Error: " = true := by
  unfold run_api
  rcases h : api cfg net endpoint method body params with ⟨res, log⟩
  cases res with
  | ok p => exact Or.inl ⟨p, rfl⟩
  | error e => exact Or.inr (handle_error_starts cfg e)

theorem list_workspaces_output_shape (cfg : Config) (net : Backend) :
    (∃ p, (list_workspaces cfg net).1 = json_response p)
    ∨ strStarts (list_workspaces cfg net).1 "Error: " = true := by
  unfold list_workspaces
  split
  · exact Or.inr (handle_error_starts _ _)
  · split
    · exact Or.inr (handle_error_starts _ _)
    · split
      · exact Or.inr (handle_error_starts _ _)
      · split
        · exact Or.inr (handle_error_starts _ _)
        · rename_i summary heq
          exact Or.inl ⟨.json (.obj [("total", .num (Int.ofNat summary.length)),
            ("workspaces", .arr summary)]), rfl⟩

theorem get_system_settings_output_shape (cfg : Config) (net : Backend) :
    (∃ p, (get_system_settings cfg net).1 = json_response p)
    ∨ strStarts (get_system_settings cfg net).1 "Error: " = true := by
  unfold get_system_settings
  split
  · exact Or.inr (handle_error_starts _ _)
  · split
    · exact Or.inr (handle_error_starts _ _)
    · split
      · rename_i sf heq
        exact Or.inl ⟨.json (.obj [("settings", .obj (safe_keys.filterMap fun k =>
          match List.lookup k sf with
          | some .null => none
          | some v => some (k, v)
          | none => none))]), rfl⟩
      · exact Or.inr (handle_error_starts _ _)

theorem search_workspace_output_shape (cfg : Config) (net : Backend)
    (slug query : String) (top_n : Int) (st : Option Rat) :
    (∃ p, (search_workspace cfg net slug query top_n st).1 = json_response p)
    ∨ strStarts (search_workspace cfg net slug query top_n st).1 "Error: " = true := by
  unfold search_workspace
  dsimp only
  split
  · exact Or.inr (handle_error_starts _ _)
  · split
    · split
      · exact Or.inr (handle_error_starts _ _)
      · exact run_api_output_shape _ _ _ _ _ _
    · exact run_api_output_shape _ _ _ _ _ _

theorem upload_link_output_shape (cfg : Config) (net : Backend) (link : String) :
    (∃ p, (upload_link cfg net link).1 = json_response p)
    ∨ strStarts (upload_link cfg net link).1 "Error: " = true := by
  unfold upload_link
  split
  · exact Or.inr (by decide)
  · exact run_api_output_shape _ _ _ _ _ _

theorem update_workspace_output_shape (cfg : Config) (net : Backend) (slug : String)
    (name : Option String) (openAiTemp : Option Rat) (openAiHistory : Option Int)
    (openAiPrompt : Option String) (similarityThreshold : Option Rat)
    (topN : Option Int) (chatMode : Option ChatMode) :
    (∃ p, (update_workspace cfg net slug name openAiTemp openAiHistory openAiPrompt
        similarityThreshold topN chatMode).1 = json_response p)
    ∨ strStarts (update_workspace cfg net slug name openAiTemp openAiHistory openAiPrompt
        similarityThreshold topN chatMode).1 "Error: " = true := by
  unfold update_workspace
  dsimp only
  split
  · exact Or.inr (handle_error_starts _ _)
  · split
    · exact Or.inr (by decide)
    · exact run_api_output_shape _ _ _ _ _ _

theorem update_embeddings_output_shape (cfg : Config) (net : Backend) (slug : String)
    (adds deletes : Option (List String)) :
    (∃ p, (update_embeddings cfg net slug adds deletes).1 = json_response p)
    ∨ strStarts (update_embeddings cfg net slug adds deletes).1 "Error: " = true := by
  unfold update_embeddings
  dsimp only
  split
  · exact Or.inr (by decide)
  · exact run_api_output_shape _ _ _ _ _ _

/-- **C8**: every failure path yields a string, never an exception: the
normalizer's output always begins with "Error: " regardless of the failure,
and each embedded tool's output is either the JSON serialization of a
dispatcher payload (pure success) or a string beginning with "Error: " —
including the locally generated failures such as "Error: No updates
provided.". -/
theorem C8_failures_are_prefixed_strings :
    (∀ (cfg : Config) (e : Exc), strStarts (handle_error cfg e) "Error: " = true)
    ∧ (∀ (cfg : Config) (net : Backend),
        (∃ p, (check_auth cfg net).1 = json_response p)
        ∨ strStarts (check_auth cfg net).1 "Error: " = true)
    ∧ (∀ (cfg : Config) (net : Backend),
        (∃ p, (list_workspaces cfg net).1 = json_response p)
        ∨ strStarts (list_workspaces cfg net).1 "Error: " = true)
    ∧ (∀ (cfg : Config) (net : Backend),
        (∃ p, (get_system_settings cfg net).1 = json_response p)
        ∨ strStarts (get_system_settings cfg net).1 "Error: " = true)
    ∧ (∀ (cfg : Config) (net : Backend) (slug query : String) (top_n : Int)
        (st : Option Rat),
        (∃ p, (search_workspace cfg net slug query top_n st).1 = json_response p)
        ∨ strStarts (search_workspace cfg net slug query top_n st).1 "Error: " = true)
    ∧ (∀ (cfg : Config) (net : Backend) (link : String),
        (∃ p, (upload_link cfg net link).1 = json_response p)
        ∨ strStarts (upload_link cfg net link).1 "Error: " = true)
    ∧ (∀ (cfg : Config) (net : Backend) (slug : String) (name : Option String)
        (openAiTemp : Option Rat) (openAiHistory : Option Int)
        (openAiPrompt : Option String) (similarityThreshold : Option Rat)
        (topN : Option Int) (chatMode : Option ChatMode),
        (∃ p, (update_workspace cfg net slug name openAiTemp openAiHistory
            openAiPrompt similarityThreshold topN chatMode).1 = json_response p)
        ∨ strStarts (update_workspace cfg net slug name openAiTemp openAiHistory
            openAiPrompt similarityThreshold topN chatMode).1 "Error: " = true)
    ∧ (∀ (cfg : Config) (net : Backend) (slug : String)
        (adds deletes : Option (List String)),
        (∃ p, (update_embeddings cfg net slug adds deletes).1 = json_response p)
        ∨ strStarts (update_embeddings cfg net slug adds deletes).1 "Error: " = true)
    ∧ strStarts "Error: No updates provided." "Error: " = true
    ∧ strStarts "Error: Provide at least \x27adds\x27 or \x27deletes\x27." "Error: " = true
    ∧ strStarts "Error: Link must start with http:// or https://" "Error: " = true := by
  refine ⟨handle_error_starts,
    fun cfg net => run_api_output_shape cfg net "/auth" "GET" none none,
    list_workspaces_output_shape,
    get_system_settings_output_shape,
    search_workspace_output_shape,
    upload_link_output_shape,
    update_workspace_output_shape,
    update_embeddings_output_shape,
    by decide, by decide, by decide⟩

end AnythingLLM
